import Mathlib

/-
Verification of scripts/send_emails_notion_to_kit.py and
scripts/sync_email_stats_kit_to_notion.py.

Shallow embedding conventions:
* Notion rich-text objects become `Span` records; Notion blocks become the
  `Block` inductive (one case per handled block type plus `unsupported`).
* Network collaborators (Cloudinary upload, Kit tag/segment name lookups,
  datetime parsing from the standard library) are passed in as function
  parameters, since their behaviour is outside the repository.
* Instants in time are integers (seconds since the epoch, UTC); Python
  floats in the stats path are modelled as exact rationals.
-/

namespace NotionKit

/-- Marker string for an opening bulleted-list container. -/
def ulOpen : String := "<ul>"

/-- Marker string for a closing bulleted-list container. -/
def ulClose : String := "</ul>"

/-- Marker string for an opening numbered-list container. -/
def olOpen : String := "<ol>"

/-- Marker string for a closing numbered-list container. -/
def olClose : String := "</ol>"

/-- One Notion rich-text span: plain text, its annotation flags, and an
optional link target (`href`).  Mirrors the fields read by
`rich_text_to_html` (send script, lines 193-220). -/
structure Span where
  plain_text : String
  bold : Bool
  italic : Bool
  strikethrough : Bool
  underline : Bool
  span_code : Bool
  href : Option String
deriving Repr, DecidableEq

/-- Rendering of one span, following the body of the loop in
`rich_text_to_html` (lines 197-218): the content is wrapped by each set
annotation in program order (bold, italic, strikethrough, underline, code),
and finally by the link element when `href` is present. -/
def spanToHtml (t : Span) : String :=
  let content := t.plain_text
  let content := if t.bold then "<strong>" ++ content ++ "</strong>" else content
  let content := if t.italic then "<em>" ++ content ++ "</em>" else content
  let content := if t.strikethrough then "<s>" ++ content ++ "</s>" else content
  let content := if t.underline then "<u>" ++ content ++ "</u>" else content
  let content := if t.span_code then "<code>" ++ content ++ "</code>" else content
  match t.href with
  | some url => "<a href=\"" ++ url ++ "\">" ++ content ++ "</a>"
  | none => content

/-- Embedding of `rich_text_to_html` (lines 193-220): concatenate the
rendered spans in sequence order, starting from the empty string. -/
def rich_text_to_html (rich_text_array : List Span) : String :=
  rich_text_array.foldl (fun html t => html ++ spanToHtml t) ""

/-- One Notion content block, as consumed by `block_to_html`
(lines 125-190).  The `image` case carries the already-extracted source URL
(`None` when the block's payload has neither a `file` nor an `external`
URL).  `unsupported` stands for every block type the script does not
handle. -/
inductive Block where
  | paragraph (rich_text : List Span)
  | heading_1 (rich_text : List Span)
  | heading_2 (rich_text : List Span)
  | heading_3 (rich_text : List Span)
  | bulleted_list_item (rich_text : List Span)
  | numbered_list_item (rich_text : List Span)
  | image (url : Option String)
  | divider
  | quote (rich_text : List Span)
  | unsupported
deriving Repr, DecidableEq

/-- The Cloudinary public id derived for the n-th image of an email
(line 172 of the send script). -/
def publicId (email_id : String) (count : Nat) : String :=
  "email_" ++ email_id ++ "_" ++ toString count

/-- Prefix of the image fragment emitted by `block_to_html` (line 176). -/
def imgPre : String := "<p><img src=\""

/-- Suffix of the image fragment emitted by `block_to_html` (line 176). -/
def imgSuf : String := "\" alt=\"Email image\" style=\"max-width: 100%; height: auto;\"></p>"

/-- Embedding of `block_to_html` (lines 125-190).  `upload` stands for
`upload_to_cloudinary` (source URL and public id in, durable URL out,
`none` on failure); `count` is the running image counter threaded through
the render pass via `image_counter`.  Returns the fragment (possibly
empty) and the updated counter. -/
def block_to_html (upload : String → String → Option String) (email_id : String)
    (blk : Block) (count : Nat) : String × Nat :=
  match blk with
  | .paragraph rich_text =>
    let html := rich_text_to_html rich_text
    (if html = "" then "" else "<p>" ++ html ++ "</p>", count)
  | .heading_1 rich_text =>
    let html := rich_text_to_html rich_text
    (if html = "" then "" else "<h1>" ++ html ++ "</h1>", count)
  | .heading_2 rich_text =>
    let html := rich_text_to_html rich_text
    (if html = "" then "" else "<h2>" ++ html ++ "</h2>", count)
  | .heading_3 rich_text =>
    let html := rich_text_to_html rich_text
    (if html = "" then "" else "<h3>" ++ html ++ "</h3>", count)
  | .bulleted_list_item rich_text =>
    let html := rich_text_to_html rich_text
    (if html = "" then "" else "<li>" ++ html ++ "</li>", count)
  | .numbered_list_item rich_text =>
    let html := rich_text_to_html rich_text
    (if html = "" then "" else "<li>" ++ html ++ "</li>", count)
  | .image url =>
    match url with
    | some image_url =>
      match upload image_url (publicId email_id (count + 1)) with
      | some cloudinary_url => (imgPre ++ cloudinary_url ++ imgSuf, count + 1)
      | none => ("", count + 1)
    | none => ("", count)
  | .divider => ("<hr>", count)
  | .quote rich_text =>
    let html := rich_text_to_html rich_text
    (if html = "" then "" else "<blockquote>" ++ html ++ "</blockquote>", count)
  | .unsupported => ("", count)

/-- The list-transition step of `blocks_to_html` (lines 234-256): given the
current block and the flags `in_bullet_list` / `in_numbered_list`, produce
the list-container markers appended for this block, in the order the source
appends them, together with the updated flags.  Note the source appends the
opening marker of the new list before the closing marker of the other list
kind. -/
def openClose (blk : Block) (in_bullet_list in_numbered_list : Bool) :
    List String × Bool × Bool :=
  match blk with
  | .bulleted_list_item _ =>
    ((if in_bullet_list then [] else [ulOpen]) ++
      (if in_numbered_list then [olClose] else []), true, false)
  | .numbered_list_item _ =>
    ((if in_numbered_list then [] else [olOpen]) ++
      (if in_bullet_list then [ulClose] else []), false, true)
  | _ =>
    ((if in_bullet_list then [ulClose] else []) ++
      (if in_numbered_list then [olClose] else []), false, false)

/-- The loop of `blocks_to_html` (lines 231-267), accumulating `html_parts`:
for each block, append the list-transition markers, then the block's own
fragment when it is non-empty; at the end of the stream append the closing
marker of any list still open (`</ul>` checked before `</ol>`, lines
264-267). -/
def blocksGo (upload : String → String → Option String) (email_id : String) :
    List Block → Bool → Bool → Nat → List String
  | [], in_bullet_list, in_numbered_list, _ =>
    (if in_bullet_list then [ulClose] else []) ++
      (if in_numbered_list then [olClose] else [])
  | blk :: rest, in_bullet_list, in_numbered_list, count =>
    (openClose blk in_bullet_list in_numbered_list).1 ++
      ((if (block_to_html upload email_id blk count).1 = "" then []
          else [(block_to_html upload email_id blk count).1]) ++
        blocksGo upload email_id rest
          (openClose blk in_bullet_list in_numbered_list).2.1
          (openClose blk in_bullet_list in_numbered_list).2.2
          (block_to_html upload email_id blk count).2)

/-- The `html_parts` list produced by `blocks_to_html` (lines 223-267),
starting with no list open and the image counter at 0. -/
def blocks_to_html_parts (upload : String → String → Option String)
    (email_id : String) (blocks : List Block) : List String :=
  blocksGo upload email_id blocks false false 0

/-- Embedding of `blocks_to_html` (lines 223-269): the parts joined with
newlines. -/
def blocks_to_html (upload : String → String → Option String)
    (email_id : String) (blocks : List Block) : String :=
  String.intercalate "\n" (blocks_to_html_parts upload email_id blocks)

/-- Number of occurrences of the string `m` in a list of strings. -/
def countStr (m : String) : List String → Nat
  | [] => 0
  | s :: rest => (if s = m then 1 else 0) + countStr m rest

/-- Modelled from the spec: the span-rendering order the spec asserts,
with the style markers nested bold, italic, strikethrough, underline, code
from outermost to innermost and the link element wrapping the styled
content as the outermost element.  Written only to be compared with
`spanToHtml`, which embeds the source. -/
def spanToHtmlSpecOrder (t : Span) : String :=
  let content := t.plain_text
  let content := if t.span_code then "<code>" ++ content ++ "</code>" else content
  let content := if t.underline then "<u>" ++ content ++ "</u>" else content
  let content := if t.strikethrough then "<s>" ++ content ++ "</s>" else content
  let content := if t.italic then "<em>" ++ content ++ "</em>" else content
  let content := if t.bold then "<strong>" ++ content ++ "</strong>" else content
  match t.href with
  | some url => "<a href=\"" ++ url ++ "\">" ++ content ++ "</a>"
  | none => content

/-- Modelled from the spec: concatenation of `spanToHtmlSpecOrder` over the
spans, for comparison with `rich_text_to_html`. -/
def rich_text_to_html_spec_order (rich_text_array : List Span) : String :=
  rich_text_array.foldl (fun html t => html ++ spanToHtmlSpecOrder t) ""

/-- Wrap `s` in the tag pair when `flag` is set. -/
def wrapIf (flag : Bool) (opTag clTag : String) (s : String) : String :=
  if flag then opTag ++ s ++ clTag else s

/-- Wrap `s` in a link element when a target is present. -/
def wrapLink (href : Option String) (s : String) : String :=
  match href with
  | some url => "<a href=\"" ++ url ++ "\">" ++ s ++ "</a>"
  | none => s

/-- The nesting the source actually produces for one span, written as
explicit wrapping from innermost (bold) to outermost (code, then link):
equivalently, the fixed order link, code, underline, strikethrough,
italic, bold from outermost to innermost. -/
def spanAmendedForm (t : Span) : String :=
  wrapLink t.href
    (wrapIf t.span_code "<code>" "</code>"
      (wrapIf t.underline "<u>" "</u>"
        (wrapIf t.strikethrough "<s>" "</s>"
          (wrapIf t.italic "<em>" "</em>"
            (wrapIf t.bold "<strong>" "</strong>" t.plain_text)))))

/-- Run a well-nesting automaton for one open/close marker pair over a list
of strings.  The Boolean state says whether the container is currently
open; `op` may only occur while closed and `cl` only while open; any other
string is ignored.  Returns `none` when the discipline is violated,
otherwise the final state. -/
def markersRun (op cl : String) : Bool → List String → Option Bool
  | b, [] => some b
  | b, s :: rest =>
    if s = op then
      if b then none else markersRun op cl true rest
    else if s = cl then
      if b then markersRun op cl false rest else none
    else markersRun op cl b rest

end NotionKit

namespace NotionKit

/-- Provider-facing recipient resolution outcome of `create_kit_broadcast`
(lines 329-390): either no filter at all (broadcast goes to all
subscribers), a `subscriber_filter` made of `all`-conjoined conditions, or
a refusal (the function returns `None` before any request is made). -/
inductive Recipients where
  | noFilter
  | filtered (conds : List (String × List Int))
  | refused
deriving Repr, DecidableEq

/-- Python truthiness of an `Optional[int]`: `None` and `0` are falsy.
Used because the source tests `if tag_id:` / `if segment_id:`. -/
def idOrNone (o : Option Int) : Option Int :=
  match o with
  | some i => if i = 0 then none else some i
  | none => none

/-- One iteration of the name-resolution loop of `create_kit_broadcast`
(lines 348-361): try the tag lookup first; when it yields a truthy id,
append it to the tag ids, otherwise try the segment lookup; names matching
neither are dropped. -/
def resolveStep (tagLookup segLookup : String → Option Int)
    (acc : List Int × List Int) (name : String) : List Int × List Int :=
  match idOrNone (tagLookup name) with
  | some tag_id => (acc.1 ++ [tag_id], acc.2)
  | none =>
    match idOrNone (segLookup name) with
    | some segment_id => (acc.1, acc.2 ++ [segment_id])
    | none => acc

/-- The `(tag_ids, segment_ids)` pair accumulated by the loop of
`create_kit_broadcast` (lines 345-361). -/
def resolveIds (tagLookup segLookup : String → Option Int)
    (segments : List String) : List Int × List Int :=
  segments.foldl (resolveStep tagLookup segLookup) ([], [])

set_option linter.unusedVariables false in
/-- Recipient resolution of `create_kit_broadcast` (lines 329-390).
`tagLookup` and `segLookup` stand for `get_kit_tag_id` and
`get_kit_segment_id` (network collaborators).  In the source, `TEST_MODE`
and `TEST_EMAIL` only produce log output at this point (lines 332-335);
they do not alter the resolution, so the corresponding parameters are
unused here.  With an empty segment list or a list containing the exact
name "Everyone" no filter is attached; otherwise names are resolved to
ids, a fully unresolved list refuses the send (returns `None`, lines
363-365), and otherwise a conjunctive filter is built, segment condition
first (lines 368-390). -/
def create_kit_broadcast_recipients (test_mode : Bool) (test_email : String)
    (tagLookup segLookup : String → Option Int)
    (segments : List String) : Recipients :=
  if segments = [] ∨ "Everyone" ∈ segments then
    Recipients.noFilter
  else
    let ids := resolveIds tagLookup segLookup segments
    if ids.1 = [] ∧ ids.2 = [] then
      Recipients.refused
    else
      Recipients.filtered
        ((if ids.2 = [] then [] else [("segment", ids.2)]) ++
          (if ids.1 = [] then [] else [("tag", ids.1)]))

/-- Outcome of the schedule checks of `process_email` (lines 505-540).
Only `proceed` carries a send time forward to the broadcast request. -/
inductive ScheduleOutcome where
  | skip_missing_time
  | skip_no_time
  | skip_invalid
  | skip_past
  | proceed (send_at_utc : Int)
deriving Repr, DecidableEq

/-- Embedding of the schedule gate inside `process_email` (lines 505-540).
`parseIso` stands for `datetime.fromisoformat` composed with the `Z`
replacement (line 520), returning the parsed instant as seconds since the
epoch in UTC, or `none` when parsing raises.  A missing or empty value is
skipped (lines 505-507, Python truthiness of the extracted string); a
value without a `T` time separator is skipped (lines 510-515); an
unparsable value is skipped (lines 538-540); a value strictly before `now`
is skipped (lines 529-533); otherwise the gate proceeds with the parsed
instant, which line 536 re-serialises in UTC without changing it. -/
def schedule_gate (parseIso : String → Option Int)
    (publish_date : Option String) (now : Int) : ScheduleOutcome :=
  match publish_date with
  | none => ScheduleOutcome.skip_missing_time
  | some s =>
    if s = "" then ScheduleOutcome.skip_missing_time
    else if 'T' ∉ s.data then ScheduleOutcome.skip_no_time
    else
      match parseIso s with
      | none => ScheduleOutcome.skip_invalid
      | some t =>
        if t < now then ScheduleOutcome.skip_past else ScheduleOutcome.proceed t

/-- The stats dictionary returned by the Kit broadcast-stats endpoint, as
read by `update_notion_email_stats` (sync script, lines 187-194):
`recipients`, `emails_opened`, `total_clicks` are counts and `open_rate`
is a percentage.  Floats are modelled as exact rationals. -/
structure KitStats where
  recipients : Int
  emails_opened : Int
  total_clicks : Int
  open_rate : Rat
deriving Repr, DecidableEq

/-- The five numbers written back to the Notion page by
`update_notion_email_stats` (payload at lines 219-237): Recipients, Total
Opens, Total Clicks, Open Rate and Click to Open Rate. -/
structure NormalizedStats where
  recipients : Int
  opens : Int
  clicks : Int
  open_rate : Rat
  click_to_open_rate : Rat
deriving Repr, DecidableEq

/-- Rational model of Python `round(x, 4)`: round to four decimal places
(half rounds up; the values considered in this development are never at a
tie). -/
def round4 (x : Rat) : Rat := ((⌊x * 10000 + 1 / 2⌋ : Int) : Rat) / 10000

/-- Embedding of the pure computation of `update_notion_email_stats`
(lines 187-237).  `content_clicks` is `None` exactly when
`get_kit_broadcast_clicks` failed (sync script, lines 281-282), in which
case the click-to-open ratio falls back to `total_clicks` (lines 200-205).
The open rate is the provider percentage divided by 100 and rounded to 4
places (line 195); the ratio is computed only when `total_opens > 0`
(lines 207-213) and is 0 otherwise. -/
def update_notion_email_stats (stats : KitStats)
    (content_clicks : Option Int) : NormalizedStats :=
  let recipients := stats.recipients
  let total_opens := stats.emails_opened
  let total_clicks := stats.total_clicks
  let open_rate := round4 (stats.open_rate / 100)
  let clicks_for_ctor :=
    match content_clicks with
    | some c => c
    | none => total_clicks
  let ctor :=
    if total_opens > 0 then
      round4 ((clicks_for_ctor : Rat) / (total_opens : Rat) * 100 / 100)
    else 0
  ⟨recipients, total_opens, total_clicks, open_rate, ctor⟩

/-- A string strictly longer than `m` cannot equal `m`; stated for the
wrap shape `pre ++ mid ++ suf`. -/
theorem wrap_ne (pre mid suf m : String) (h : m.length < pre.length + suf.length) :
    pre ++ mid ++ suf ≠ m := by
  intro he
  have hl := congrArg String.length he
  rw [String.length_append, String.length_append] at hl
  omega

/-- No fragment emitted by `block_to_html` is one of the four
list-container marker strings (it is either empty or a longer wrapped
fragment, or the horizontal rule). -/
theorem block_html_no_marker (upload : String → String → Option String)
    (email_id : String) (blk : Block) (count : Nat) :
    (block_to_html upload email_id blk count).1 = "" ∨
      ((block_to_html upload email_id blk count).1 ≠ ulOpen ∧
       (block_to_html upload email_id blk count).1 ≠ ulClose ∧
       (block_to_html upload email_id blk count).1 ≠ olOpen ∧
       (block_to_html upload email_id blk count).1 ≠ olClose) := by
  cases blk with
  | paragraph rich_text =>
    by_cases h : rich_text_to_html rich_text = ""
    · left; simp [block_to_html, h]
    · right
      simp only [block_to_html, if_neg h]
      exact ⟨wrap_ne _ _ _ _ (by decide), wrap_ne _ _ _ _ (by decide),
        wrap_ne _ _ _ _ (by decide), wrap_ne _ _ _ _ (by decide)⟩
  | heading_1 rich_text =>
    by_cases h : rich_text_to_html rich_text = ""
    · left; simp [block_to_html, h]
    · right
      simp only [block_to_html, if_neg h]
      exact ⟨wrap_ne _ _ _ _ (by decide), wrap_ne _ _ _ _ (by decide),
        wrap_ne _ _ _ _ (by decide), wrap_ne _ _ _ _ (by decide)⟩
  | heading_2 rich_text =>
    by_cases h : rich_text_to_html rich_text = ""
    · left; simp [block_to_html, h]
    · right
      simp only [block_to_html, if_neg h]
      exact ⟨wrap_ne _ _ _ _ (by decide), wrap_ne _ _ _ _ (by decide),
        wrap_ne _ _ _ _ (by decide), wrap_ne _ _ _ _ (by decide)⟩
  | heading_3 rich_text =>
    by_cases h : rich_text_to_html rich_text = ""
    · left; simp [block_to_html, h]
    · right
      simp only [block_to_html, if_neg h]
      exact ⟨wrap_ne _ _ _ _ (by decide), wrap_ne _ _ _ _ (by decide),
        wrap_ne _ _ _ _ (by decide), wrap_ne _ _ _ _ (by decide)⟩
  | bulleted_list_item rich_text =>
    by_cases h : rich_text_to_html rich_text = ""
    · left; simp [block_to_html, h]
    · right
      simp only [block_to_html, if_neg h]
      exact ⟨wrap_ne _ _ _ _ (by decide), wrap_ne _ _ _ _ (by decide),
        wrap_ne _ _ _ _ (by decide), wrap_ne _ _ _ _ (by decide)⟩
  | numbered_list_item rich_text =>
    by_cases h : rich_text_to_html rich_text = ""
    · left; simp [block_to_html, h]
    · right
      simp only [block_to_html, if_neg h]
      exact ⟨wrap_ne _ _ _ _ (by decide), wrap_ne _ _ _ _ (by decide),
        wrap_ne _ _ _ _ (by decide), wrap_ne _ _ _ _ (by decide)⟩
  | image url =>
    cases url with
    | none => left; rfl
    | some image_url =>
      cases hu : upload image_url (publicId email_id (count + 1)) with
      | none => left; simp [block_to_html, hu]
      | some cloudinary_url =>
        right
        simp only [block_to_html, hu]
        exact ⟨wrap_ne _ _ _ _ (by decide), wrap_ne _ _ _ _ (by decide),
          wrap_ne _ _ _ _ (by decide), wrap_ne _ _ _ _ (by decide)⟩
  | divider =>
    right
    simp only [block_to_html]
    exact ⟨by decide, by decide, by decide, by decide⟩
  | quote rich_text =>
    by_cases h : rich_text_to_html rich_text = ""
    · left; simp [block_to_html, h]
    · right
      simp only [block_to_html, if_neg h]
      exact ⟨wrap_ne _ _ _ _ (by decide), wrap_ne _ _ _ _ (by decide),
        wrap_ne _ _ _ _ (by decide), wrap_ne _ _ _ _ (by decide)⟩
  | unsupported => left; rfl

/-- The marker automaton distributes over list append via `Option.bind`. -/
theorem markersRun_append (op cl : String) (l1 l2 : List String) :
    ∀ b, markersRun op cl b (l1 ++ l2) =
      (markersRun op cl b l1).bind (fun b2 => markersRun op cl b2 l2) := by
  induction l1 with
  | nil => intro b; simp [markersRun]
  | cons s rest ih =>
    intro b
    by_cases h1 : s = op
    · cases b <;> simp [markersRun, h1, ih]
    · by_cases h2 : s = cl
      · have hco : ¬ cl = op := fun hc => h1 (h2.trans hc)
        cases b <;> simp [markersRun, h1, h2, hco, ih]
      · cases b <;> simp [markersRun, h1, h2, ih]

/-- The markers appended by a single list transition respect the bulleted
automaton: starting from the current `in_bullet_list` flag they lead to
the updated flag. -/
theorem markersRun_openClose_ul (blk : Block) (inB inN : Bool) :
    markersRun ulOpen ulClose inB (openClose blk inB inN).1 =
      some (openClose blk inB inN).2.1 := by
  cases blk <;> cases inB <;> cases inN <;> rfl

/-- The markers appended by a single list transition respect the numbered
automaton: starting from the current `in_numbered_list` flag they lead to
the updated flag. -/
theorem markersRun_openClose_ol (blk : Block) (inB inN : Bool) :
    markersRun olOpen olClose inN (openClose blk inB inN).1 =
      some (openClose blk inB inN).2.2 := by
  cases blk <;> cases inB <;> cases inN <;> rfl

/-- The singleton list holding one non-marker string leaves either
automaton state unchanged. -/
theorem markersRun_single (op cl s : String) (h1 : s ≠ op) (h2 : s ≠ cl) (b : Bool) :
    markersRun op cl b [s] = some b := by
  simp [markersRun, h1, h2]

/-- Running the bulleted automaton from the current `in_bullet_list` flag
over the whole `html_parts` stream produced by the `blocks_to_html` loop
(including the terminal flush) always ends cleanly in the closed state. -/
theorem blocksGo_run_ul (upload : String → String → Option String) (email_id : String) :
    ∀ (blocks : List Block) (inB inN : Bool) (count : Nat),
      markersRun ulOpen ulClose inB (blocksGo upload email_id blocks inB inN count) =
        some false := by
  intro blocks
  induction blocks with
  | nil => intro inB inN count; cases inB <;> cases inN <;> rfl
  | cons blk rest ih =>
    intro inB inN count
    have hmid : ∀ st : Bool,
        markersRun ulOpen ulClose st
          (if (block_to_html upload email_id blk count).1 = "" then []
            else [(block_to_html upload email_id blk count).1]) = some st := by
      intro st
      by_cases hb : (block_to_html upload email_id blk count).1 = ""
      · simp [hb, markersRun]
      · rcases block_html_no_marker upload email_id blk count with h0 | ⟨h1, h2, _, _⟩
        · exact absurd h0 hb
        · rw [if_neg hb]
          exact markersRun_single _ _ _ h1 h2 st
    simp only [blocksGo]
    rw [markersRun_append, markersRun_openClose_ul, Option.some_bind,
      markersRun_append, hmid, Option.some_bind]
    exact ih _ _ _

/-- Running the numbered automaton from the current `in_numbered_list`
flag over the whole `html_parts` stream always ends cleanly in the closed
state. -/
theorem blocksGo_run_ol (upload : String → String → Option String) (email_id : String) :
    ∀ (blocks : List Block) (inB inN : Bool) (count : Nat),
      markersRun olOpen olClose inN (blocksGo upload email_id blocks inB inN count) =
        some false := by
  intro blocks
  induction blocks with
  | nil => intro inB inN count; cases inB <;> cases inN <;> rfl
  | cons blk rest ih =>
    intro inB inN count
    have hmid : ∀ st : Bool,
        markersRun olOpen olClose st
          (if (block_to_html upload email_id blk count).1 = "" then []
            else [(block_to_html upload email_id blk count).1]) = some st := by
      intro st
      by_cases hb : (block_to_html upload email_id blk count).1 = ""
      · simp [hb, markersRun]
      · rcases block_html_no_marker upload email_id blk count with h0 | ⟨_, _, h3, h4⟩
        · exact absurd h0 hb
        · rw [if_neg hb]
          exact markersRun_single _ _ _ h3 h4 st
    simp only [blocksGo]
    rw [markersRun_append, markersRun_openClose_ol, Option.some_bind,
      markersRun_append, hmid, Option.some_bind]
    exact ih _ _ _

/-- A clean run of the marker automaton forces the counts of open and
close markers to balance (up to the initial and final states). -/
theorem markersRun_count (op cl : String) (hoc : op ≠ cl) :
    ∀ (l : List String) (b b2 : Bool), markersRun op cl b l = some b2 →
      countStr op l + b.toNat = countStr cl l + b2.toNat := by
  intro l
  induction l with
  | nil =>
    intro b b2 h
    simp [markersRun] at h
    simp [countStr, h]
  | cons s rest ih =>
    intro b b2 h
    by_cases h1 : s = op
    · have hsc : s ≠ cl := by rw [h1]; exact hoc
      cases b with
      | true => rw [h1] at h; simp [markersRun] at h
      | false =>
        rw [h1] at h
        have hrun : markersRun op cl true rest = some b2 := by
          simpa [markersRun] using h
        have hih := ih true b2 hrun
        cases b2 <;> simp [countStr, h1, hsc, hoc] at hih ⊢ <;> omega
    · by_cases h2 : s = cl
      · have hco : ¬ cl = op := fun hc => h1 (h2.trans hc)
        have hcs : cl ≠ op := hco
        cases b with
        | false => simp [markersRun, h1, h2, hco] at h
        | true =>
          have hrun : markersRun op cl false rest = some b2 := by
            simpa [markersRun, h1, h2, hco] using h
          have hih := ih false b2 hrun
          cases b2 <;> simp [countStr, h1, h2, hco] at hih ⊢ <;> omega
      · have hrun : markersRun op cl b rest = some b2 := by
          simpa [markersRun, h1, h2] using h
        have hih := ih b b2 hrun
        cases b <;> cases b2 <;> simp [countStr, h1, h2] at hih ⊢ <;> omega

/-- While the automaton is in the open state, the head of a clean run
cannot be the open marker. -/
theorem markersRun_head_ne (op cl y : String) (r : List String) (b2 : Bool)
    (h : markersRun op cl true (y :: r) = some b2) : y ≠ op := by
  intro hy
  rw [hy] at h
  simp [markersRun] at h

/-- A clean run of the marker automaton never has two adjacent open
markers. -/
theorem markersRun_chain (op cl : String) :
    ∀ (l : List String) (b b2 : Bool), markersRun op cl b l = some b2 →
      List.Chain' (fun x y => ¬(x = op ∧ y = op)) l := by
  intro l
  induction l with
  | nil => intro b b2 _; exact List.chain'_nil
  | cons s rest ih =>
    intro b b2 h
    by_cases h1 : s = op
    · cases b with
      | true => rw [h1] at h; simp [markersRun] at h
      | false =>
        rw [h1] at h
        have hrun : markersRun op cl true rest = some b2 := by
          simpa [markersRun] using h
        refine List.chain'_cons'.mpr ⟨?_, ih true b2 hrun⟩
        intro y hy hcon
        cases rest with
        | nil => simp at hy
        | cons z zs =>
          simp at hy
          rw [hy] at hrun
          exact markersRun_head_ne op cl y zs b2 hrun hcon.2
    · have hex : ∃ b3, markersRun op cl b3 rest = some b2 := by
        by_cases h2 : s = cl
        · have hco : ¬ cl = op := fun hc => h1 (h2.trans hc)
          cases b with
          | false => simp [markersRun, h1, h2, hco] at h
          | true =>
            refine ⟨false, ?_⟩
            simpa [markersRun, h1, h2, hco] using h
        · exact ⟨b, by simpa [markersRun, h1, h2] using h⟩
      obtain ⟨b3, hrun⟩ := hex
      refine List.chain'_cons'.mpr ⟨?_, ih b3 b2 hrun⟩
      intro y _ hcon
      exact h1 hcon.1

/-- Two chain conditions on adjacent elements combine pointwise. -/
theorem chain_both {α : Type} (R S : α → α → Prop) :
    ∀ l : List α, List.Chain' R l → List.Chain' S l →
      List.Chain' (fun a b => R a b ∧ S a b) l := by
  intro l
  induction l with
  | nil => intro _ _; exact List.chain'_nil
  | cons a rest ih =>
    intro hR hS
    rcases List.chain'_cons'.mp hR with ⟨hRh, hRt⟩
    rcases List.chain'_cons'.mp hS with ⟨hSh, hSt⟩
    exact List.chain'_cons'.mpr ⟨fun y hy => ⟨hRh y hy, hSh y hy⟩, ih hRt hSt⟩

/-- C4: for every block sequence, the `html_parts` stream produced by
`blocks_to_html` (terminal flush included) has as many `</ul>` as `<ul>`
markers and as many `</ol>` as `<ol>` markers, and never two consecutive
open markers of the same container type. -/
theorem list_tracker_invariant_c4 (upload : String → String → Option String)
    (email_id : String) (blocks : List Block) :
    countStr ulOpen (blocks_to_html_parts upload email_id blocks) =
      countStr ulClose (blocks_to_html_parts upload email_id blocks) ∧
    countStr olOpen (blocks_to_html_parts upload email_id blocks) =
      countStr olClose (blocks_to_html_parts upload email_id blocks) ∧
    List.Chain' (fun x y => ¬(x = ulOpen ∧ y = ulOpen) ∧ ¬(x = olOpen ∧ y = olOpen))
      (blocks_to_html_parts upload email_id blocks) := by
  have hul := blocksGo_run_ul upload email_id blocks false false 0
  have hol := blocksGo_run_ol upload email_id blocks false false 0
  simp only [blocks_to_html_parts]
  refine ⟨?_, ?_, ?_⟩
  · have h := markersRun_count ulOpen ulClose (by decide) _ false false hul
    simpa using h
  · have h := markersRun_count olOpen olClose (by decide) _ false false hol
    simpa using h
  · exact chain_both _ _ _ (markersRun_chain ulOpen ulClose _ false false hul)
      (markersRun_chain olOpen olClose _ false false hol)

/-- C3 (evaluation at the failing input): on the block sequence
[numbered item "a", bulleted item "b"] the loop of `blocks_to_html`
appends the open-bulleted marker BEFORE the close-numbered marker — the
parts stream is `<ol>`, `<li>a</li>`, `<ul>`, `</ol>`, `<li>b</li>`,
`</ul>` — so the markers appear in open-then-close order, contrary to the
claimed close-then-open order (the symmetric case behaves the same way). -/
theorem open_before_close_c3 :
    blocks_to_html_parts (fun _ _ => none) "e"
      [Block.numbered_list_item [⟨"a", false, false, false, false, false, none⟩],
        Block.bulleted_list_item [⟨"b", false, false, false, false, false, none⟩]] =
      [olOpen, "<li>a</li>", ulOpen, olClose, "<li>b</li>", ulClose] := by
  decide

/-- While only empty-rendering bulleted items remain and a bulleted list
is open, the loop emits nothing until the terminal flush closes the
list. -/
theorem blocksGo_empty_bullets (upload : String → String → Option String)
    (email_id : String) :
    ∀ (blocks : List Block) (count : Nat),
      (∀ b ∈ blocks, ∃ rt, b = Block.bulleted_list_item rt ∧ rich_text_to_html rt = "") →
      blocksGo upload email_id blocks true false count = [ulClose] := by
  intro blocks
  induction blocks with
  | nil => intro count _; rfl
  | cons blk rest ih =>
    intro count h
    obtain ⟨rt, hblk, hrt⟩ := h blk (List.mem_cons_self blk rest)
    subst hblk
    simp only [blocksGo, openClose, block_to_html]
    simp [hrt]
    exact ih _ (fun b hb => h b (List.mem_cons_of_mem _ hb))

/-- While only empty-rendering numbered items remain and a numbered list
is open, the loop emits nothing until the terminal flush closes the
list. -/
theorem blocksGo_empty_numbered (upload : String → String → Option String)
    (email_id : String) :
    ∀ (blocks : List Block) (count : Nat),
      (∀ b ∈ blocks, ∃ rt, b = Block.numbered_list_item rt ∧ rich_text_to_html rt = "") →
      blocksGo upload email_id blocks false true count = [olClose] := by
  intro blocks
  induction blocks with
  | nil => intro count _; rfl
  | cons blk rest ih =>
    intro count h
    obtain ⟨rt, hblk, hrt⟩ := h blk (List.mem_cons_self blk rest)
    subst hblk
    simp only [blocksGo, openClose, block_to_html]
    simp [hrt]
    exact ih _ (fun b hb => h b (List.mem_cons_of_mem _ hb))

/-- C10: list containers are decided by the block's kind alone, not by its
rendered content — a non-empty document whose bulleted (resp. numbered)
items all compose to the empty string contributes no list-item fragment,
yet still renders as an empty `<ul></ul>` (resp. `<ol></ol>`) container. -/
theorem empty_items_render_containers_c10 (upload : String → String → Option String)
    (email_id : String) :
    (∀ blocks : List Block, blocks ≠ [] →
      (∀ b ∈ blocks, ∃ rt, b = Block.bulleted_list_item rt ∧ rich_text_to_html rt = "") →
      blocks_to_html upload email_id blocks = "<ul>" ++ "\n" ++ "</ul>") ∧
    (∀ blocks : List Block, blocks ≠ [] →
      (∀ b ∈ blocks, ∃ rt, b = Block.numbered_list_item rt ∧ rich_text_to_html rt = "") →
      blocks_to_html upload email_id blocks = "<ol>" ++ "\n" ++ "</ol>") := by
  constructor
  · intro blocks hne h
    cases blocks with
    | nil => exact absurd rfl hne
    | cons blk rest =>
      obtain ⟨rt, hblk, hrt⟩ := h blk (List.mem_cons_self blk rest)
      subst hblk
      have hrest := blocksGo_empty_bullets upload email_id rest 0
        (fun b hb => h b (List.mem_cons_of_mem _ hb))
      simp only [blocks_to_html, blocks_to_html_parts, blocksGo, openClose, block_to_html]
      simp [hrt, hrest]
      rfl
  · intro blocks hne h
    cases blocks with
    | nil => exact absurd rfl hne
    | cons blk rest =>
      obtain ⟨rt, hblk, hrt⟩ := h blk (List.mem_cons_self blk rest)
      subst hblk
      have hrest := blocksGo_empty_numbered upload email_id rest 0
        (fun b hb => h b (List.mem_cons_of_mem _ hb))
      simp only [blocks_to_html, blocks_to_html_parts, blocksGo, openClose, block_to_html]
      simp [hrt, hrest]
      rfl

/-- Witness for C10 at the concrete one-item documents. -/
theorem empty_items_render_containers_c10_witness :
    blocks_to_html (fun _ _ => none) "e" [Block.bulleted_list_item []] =
      "<ul>" ++ "\n" ++ "</ul>" ∧
    blocks_to_html (fun _ _ => none) "e" [Block.numbered_list_item []] =
      "<ol>" ++ "\n" ++ "</ol>" :=
  ⟨(empty_items_render_containers_c10 (fun _ _ => none) "e").1
      [Block.bulleted_list_item []] (by simp)
      (fun b hb => ⟨[], by simpa using hb, rfl⟩),
    (empty_items_render_containers_c10 (fun _ _ => none) "e").2
      [Block.numbered_list_item []] (by simp)
      (fun b hb => ⟨[], by simpa using hb, rfl⟩)⟩

/-- C1 (evaluation at the failing input): with the test-mode flag active
and no test email configured, recipient resolution of
`create_kit_broadcast` still attaches no filter for an "Everyone"
specification — it neither produces a test-email filter nor refuses — and
in general the test-mode flag and test email have no effect whatsoever on
the resolution. -/
theorem test_mode_no_override_c1 :
    create_kit_broadcast_recipients true "" (fun _ => none) (fun _ => none)
      ["Everyone"] = Recipients.noFilter ∧
    (∀ (test_mode : Bool) (test_email : String)
        (tagLookup segLookup : String → Option Int) (segments : List String),
      create_kit_broadcast_recipients test_mode test_email tagLookup segLookup segments =
        create_kit_broadcast_recipients false "" tagLookup segLookup segments) :=
  ⟨by decide, fun _ _ _ _ _ => rfl⟩

/-- The resolution loop leaves the accumulator unchanged on names that
match neither a tag nor a segment. -/
theorem resolveIds_unmatched (tagLookup segLookup : String → Option Int) :
    ∀ (segments : List String) (acc : List Int × List Int),
      (∀ n ∈ segments, tagLookup n = none ∧ segLookup n = none) →
      segments.foldl (resolveStep tagLookup segLookup) acc = acc := by
  intro segments
  induction segments with
  | nil => intro acc _; rfl
  | cons name rest ih =>
    intro acc h
    have hn := h name (List.mem_cons_self name rest)
    have hstep : resolveStep tagLookup segLookup acc name = acc := by
      simp [resolveStep, idOrNone, hn.1, hn.2]
    rw [List.foldl_cons, hstep]
    exact ih acc (fun n hn2 => h n (List.mem_cons_of_mem name hn2))

/-- C2: a non-empty named-segments specification (no "Everyone") in which
no name matches any Kit tag or segment resolves to a refusal: the
broadcast is not created, rather than silently sent to everyone. -/
theorem named_segments_refused_c2 (test_mode : Bool) (test_email : String)
    (tagLookup segLookup : String → Option Int) (segments : List String)
    (h1 : segments ≠ []) (h2 : "Everyone" ∉ segments)
    (h3 : ∀ n ∈ segments, tagLookup n = none ∧ segLookup n = none) :
    create_kit_broadcast_recipients test_mode test_email tagLookup segLookup segments =
      Recipients.refused := by
  have hres : resolveIds tagLookup segLookup segments = ([], []) :=
    resolveIds_unmatched tagLookup segLookup segments ([], []) h3
  simp only [create_kit_broadcast_recipients]
  rw [if_neg (fun hor => hor.elim h1 h2)]
  simp [hres]

/-- Witness for C2 at the concrete specification with the single unmatched
name "VIP". -/
theorem named_segments_refused_c2_witness :
    create_kit_broadcast_recipients false "" (fun _ => none) (fun _ => none)
      ["VIP"] = Recipients.refused :=
  named_segments_refused_c2 false "" (fun _ => none) (fun _ => none) ["VIP"]
    (by decide) (by decide) (fun n _ => ⟨rfl, rfl⟩)

/-- C9: whenever the segment list contains the exact name "Everyone",
recipient resolution attaches no filter at all, whatever the other names
are and whatever the tag and segment lookups would return (no lookup can
influence the result, since the theorem holds for every lookup
function). -/
theorem everyone_wins_c9 (test_mode : Bool) (test_email : String)
    (tagLookup segLookup : String → Option Int) (segments : List String)
    (h : "Everyone" ∈ segments) :
    create_kit_broadcast_recipients test_mode test_email tagLookup segLookup segments =
      Recipients.noFilter := by
  simp [create_kit_broadcast_recipients, h]

/-- Witness for C9: "Everyone" listed alongside a name that would resolve
to a tag id still yields no filter. -/
theorem everyone_wins_c9_witness :
    create_kit_broadcast_recipients false ""
      (fun n => if n = "VIP" then some 7 else none) (fun _ => none)
      ["VIP", "Everyone"] = Recipients.noFilter :=
  everyone_wins_c9 false "" (fun n => if n = "VIP" then some 7 else none)
    (fun _ => none) ["VIP", "Everyone"] (by decide)

/-- C5 (counterexample): on a single span with both bold and italic set
the source nests the italic marker OUTSIDE the bold marker, while the
claimed order (bold outermost, per `rich_text_to_html_spec_order`) would
nest bold outside italic; the two outputs differ. -/
theorem nesting_order_counterexample_c5 :
    rich_text_to_html [⟨"x", true, true, false, false, false, none⟩] =
      "<em><strong>x</strong></em>" ∧
    rich_text_to_html_spec_order [⟨"x", true, true, false, false, false, none⟩] =
      "<strong><em>x</em></strong>" ∧
    rich_text_to_html [⟨"x", true, true, false, false, false, none⟩] ≠
      rich_text_to_html_spec_order [⟨"x", true, true, false, false, false, none⟩] := by
  refine ⟨by decide, by decide, by decide⟩

/-- C5 (amended): for every text span the style markers are nested in the
fixed order code, then underline, then strikethrough, then italic, then
bold from outermost to innermost (each applied only if its flag is set),
the link element wraps the styled content as the outermost element, the
spans are concatenated in sequence order, and an empty span list yields
the empty string. -/
theorem nesting_order_amended_c5 :
    (∀ spans : List Span,
      rich_text_to_html spans = String.join (spans.map spanAmendedForm)) ∧
    rich_text_to_html [] = "" := by
  constructor
  · intro spans
    simp only [rich_text_to_html, String.join, List.foldl_map]
    rfl
  · rfl

/-- C6: the schedule gate of `process_email` maps an absent value to
`skip_missing_time`; a parsed timestamp strictly before now to
`skip_past`; a timestamp one hour after now to `proceed` carrying exactly
that instant (conversion to UTC does not change the instant); and any
`proceed` outcome carries exactly the parsed, non-past instant — the skip
outcomes carry no timestamp at all. -/
theorem schedule_gate_c6 (parseIso : String → Option Int) (now t : Int) (s : String)
    (hs : s ≠ "") (hT : 'T' ∈ s.data) (hp : parseIso s = some t) :
    schedule_gate parseIso none now = ScheduleOutcome.skip_missing_time ∧
    (t < now → schedule_gate parseIso (some s) now = ScheduleOutcome.skip_past) ∧
    (t = now + 3600 → schedule_gate parseIso (some s) now = ScheduleOutcome.proceed t) ∧
    (∀ u : Int, schedule_gate parseIso (some s) now = ScheduleOutcome.proceed u →
      u = t ∧ ¬ u < now) := by
  refine ⟨rfl, ?_, ?_, ?_⟩
  · intro hlt
    simp [schedule_gate, hs, hT, hp, hlt]
  · intro ht
    subst ht
    have hnl : ¬ (now + 3600 < now) := by omega
    simp [schedule_gate, hs, hT, hp, hnl]
  · intro u hu
    by_cases hlt : t < now
    · simp [schedule_gate, hs, hT, hp, hlt] at hu
    · simp [schedule_gate, hs, hT, hp, hlt] at hu
      rw [hu] at hlt ⊢
      exact ⟨rfl, hlt⟩

/-- Witness for C6: a gate whose parser reads the given literal as the
instant 499 skips it as past when now is 500. -/
theorem schedule_gate_c6_witness :
    schedule_gate (fun s => if s = "2020-01-01T00:00:00" then some 499 else none)
      (some "2020-01-01T00:00:00") 500 = ScheduleOutcome.skip_past := by
  have h := schedule_gate_c6
    (fun s => if s = "2020-01-01T00:00:00" then some 499 else none)
    500 499 "2020-01-01T00:00:00" (by decide) (by decide) (by simp)
  exact h.2.1 (by omega)

/-- C7: when the opens count is zero the click-to-open rate written back
to Notion is exactly 0, for any click count — the zero-denominator branch
is guarded (lines 207-213 of the sync script) and no division is
performed. -/
theorem ctor_zero_when_no_opens_c7 (stats : KitStats) (content_clicks : Option Int)
    (h : stats.emails_opened = 0) :
    (update_notion_email_stats stats content_clicks).click_to_open_rate = 0 := by
  simp [update_notion_email_stats, h]

/-- Witness for C7 at concrete stats with zero opens and nonzero clicks. -/
theorem ctor_zero_when_no_opens_c7_witness :
    (update_notion_email_stats ⟨50, 0, 7, (9 : Rat) / 2⟩ (some 7)).click_to_open_rate = 0 :=
  ctor_zero_when_no_opens_c7 ⟨50, 0, 7, (9 : Rat) / 2⟩ (some 7) rfl

/-- C8: the provider stats (recipients 100, opens 20, total clicks 5,
open-rate percentage 20.0) with no content-click override normalize to
exactly recipients 100, opens 20, clicks 5, open rate 0.2 and
click-to-open rate 0.25: the open rate is the percentage divided by 100
rounded to 4 places, and with content-click data unavailable the ratio is
computed from `total_clicks`. -/
theorem stats_scenario_c8 :
    update_notion_email_stats ⟨100, 20, 5, 20⟩ none =
      ⟨100, 20, 5, 1 / 5, 1 / 4⟩ := by
  simp only [update_notion_email_stats, NormalizedStats.mk.injEq]
  norm_num [round4]

end NotionKit
